import Mathlib

/-!
Shallow embedding of the `business_rules` rule-evaluation engine
(`business_rules/engine.py`, `business_rules/operators.py`,
`business_rules/utils.py`) and proofs of the frozen claims about it.

Python dynamic values are embedded as `PyVal`; decimal values
(`decimal.Decimal`) are embedded as exact rationals (the claims quantify
over numeric values "as exact decimals", so context-precision rounding of
`Decimal` arithmetic is out of scope); binary floats are embedded as dyadic
rationals `n / 2 ^ k`, which is exactly the information
`float.as_integer_ratio` exposes.  Fallible Python code (raised exceptions)
is embedded with `Except PyError`.
-/

/-- Embedded Python runtime errors raised by the engine and the operator
classes.  `assertionError` covers `raise AssertionError(...)` and failed
`assert` statements; `invalidRuleDefinition` is the engine's
`InvalidRuleDefinition` exception class; `missingVariable` is the
recoverable-absence signal (`MissingVariableException` from
`business_rules/exceptions.py`, which a variable accessor may raise);
`typeError` covers Python `TypeError`s (e.g. wrong call arity). -/
inductive PyError where
  | assertionError (msg : String)
  | invalidRuleDefinition (msg : String)
  | missingVariable
  | typeError (msg : String)
deriving Repr, DecidableEq

/-- Embedded Python values.  `float n k` is the binary float with exact
value `n / 2 ^ k`; `decimal q` is a `decimal.Decimal` with exact rational
value `q`; `matchObj` stands for a (truthy) `re.Match` object as returned
by `re.search` on success. -/
inductive PyVal where
  | none
  | bool (b : Bool)
  | int (n : Int)
  | float (n : Int) (k : Nat)
  | decimal (q : ℚ)
  | str (s : String)
  | list (xs : List PyVal)
  | matchObj
deriving Repr

/-- Python truthiness (`bool(v)`): `None`, `False`, zero numbers, empty
strings and empty lists are falsy; a match object is truthy. -/
def PyVal.truthy : PyVal → Bool
  | .none => false
  | .bool b => b
  | .int n => n ≠ 0
  | .float n _ => n ≠ 0
  | .decimal q => q ≠ 0
  | .str s => s ≠ ""
  | .list xs => !xs.isEmpty
  | .matchObj => true

/-- Exact rational value of a Python number, when the value is numeric
(`bool` is a subclass of `int` in Python, so `True == 1`). -/
def PyVal.asRat : PyVal → Option ℚ
  | .bool b => some (if b then 1 else 0)
  | .int n => some (n : ℚ)
  | .float n k => some ((n : ℚ) / 2 ^ k)
  | .decimal q => some q
  | _ => Option.none

mutual

/-- Python `==` on embedded values: numbers compare by exact value across
numeric types, strings and lists structurally, `None == None`; values of
unrelated types compare unequal. -/
def pyEq : PyVal → PyVal → Bool
  | .str a, .str b => a == b
  | .none, .none => true
  | .list a, .list b => pyEqList a b
  | a, b =>
    match a.asRat, b.asRat with
    | some x, some y => decide (x = y)
    | _, _ => false

/-- Elementwise Python `==` on lists. -/
def pyEqList : List PyVal → List PyVal → Bool
  | [], [] => true
  | a :: as', b :: bs' => pyEq a b && pyEqList as' bs'
  | _, _ => false

end

/-- Python iteration (`for x in v`): strings iterate over their characters
(as one-character strings), lists over their elements; other embedded
values have no `__iter__`. -/
def pyIter : PyVal → Option (List PyVal)
  | .str s => some (s.toList.map fun c => PyVal.str c.toString)
  | .list xs => some xs
  | _ => Option.none

/-- Python `str.lower()` (ASCII case folding, applied character by
character). -/
def pyLower (s : String) : String := String.mk (s.toList.map Char.toLower)

/-- Rough rendering of a Python value for error-message formatting
(`"{0}".format(value)`); the exact text is not load-bearing for any claim. -/
def PyVal.pyStr : PyVal → String
  | .none => "None"
  | .bool b => if b then "True" else "False"
  | .int n => toString n
  | .float n k => toString n ++ "/2^" ++ toString k
  | .decimal q => toString q
  | .str s => s
  | .list _ => "[...]"
  | .matchObj => "<re.Match>"

/-! ### `utils.float_to_decimal`

`float_to_decimal(f)` takes `n, d = f.as_integer_ratio()` (so `d = 2 ^ k`
and the exact value is `n / 2 ^ k`), then divides `Decimal(n)` by
`Decimal(d)` in a context of precision 60, doubling the precision and
re-dividing while the context's `Inexact` flag is set.  A context division
is exact (leaves `Inexact` clear) iff the exact quotient is representable
with at most `prec` significant digits, and an exact division returns the
exact quotient; the inexact intermediate quotients are recomputed and
discarded by the loop, so they are not modelled. -/

/-- Strip trailing decimal zeros of a coefficient (`stripTrailingZeros 0 = 0`). -/
def stripTrailingZeros (n : Nat) : Nat :=
  if h : n ≠ 0 ∧ n % 10 = 0 then stripTrailingZeros (n / 10) else n
  termination_by n
  decreasing_by exact Nat.div_lt_self (Nat.pos_of_ne_zero h.1) (by norm_num)

/-- Number of significant decimal digits of a coefficient. -/
def sigDigits (n : Nat) : Nat := (Nat.digits 10 (stripTrailingZeros n)).length

/-- Whether the context division `Decimal(n) / Decimal(2 ^ k)` at precision
`prec` is exact (leaves the `Inexact` flag clear): the exact quotient
`n * 5 ^ k / 10 ^ k` must fit in `prec` significant digits. -/
def divideIsExact (n : Int) (k prec : Nat) : Bool :=
  sigDigits (n * 5 ^ k).natAbs ≤ prec

/-- The `while ctx.flags[Inexact]` loop of `float_to_decimal`, with the
precision at iteration `i` being `60 * 2 ^ i` (the code starts at 60 and
doubles `ctx.prec` each time round); an exact context division returns the
exact quotient `n / 2 ^ k`. -/
def floatToDecimalLoop (n : Int) (k : Nat) (i : Nat) : ℚ :=
  if divideIsExact n k (60 * 2 ^ i) then (n : ℚ) / 2 ^ k
  else floatToDecimalLoop n k (i + 1)
  termination_by sigDigits (n * 5 ^ k).natAbs - i
  decreasing_by
    simp only [divideIsExact, decide_eq_true_eq] at *
    have h2 : i < 2 ^ i := Nat.lt_two_pow i
    omega

/-- `utils.float_to_decimal` on the float with exact value `n / 2 ^ k`. -/
def float_to_decimal (n : Int) (k : Nat) : ℚ :=
  floatToDecimalLoop n k 0

/-! ### `operators.py`: typed values and their casts

Each `BaseType` subclass stores `self.value = self._assert_valid_value_and_cast(value)`.
`StringType` stores a string, `NumericType` a `Decimal` (embedded as `ℚ`),
`BooleanType` a bool, `SelectType`/`SelectMultipleType` the raw iterable
unchanged. -/

/-- An instance of one of the `operators.py` `BaseType` subclasses, holding
its already-coerced `self.value`. -/
inductive TypedValue where
  | string (s : String)
  | numeric (q : ℚ)
  | boolean (b : Bool)
  | select (v : PyVal)
  | selectMultiple (v : PyVal)
deriving Repr

/-- `type(self).__name__`, as used in the unknown-operator error message. -/
def TypedValue.typeName : TypedValue → String
  | .string _ => "StringType"
  | .numeric _ => "NumericType"
  | .boolean _ => "BooleanType"
  | .select _ => "SelectType"
  | .selectMultiple _ => "SelectMultipleType"

/-- The raw `self.value` stored by the typed value (used by
`check_condition` when `value_is_variable` is set: `temp_value.value`). -/
def TypedValue.underlying : TypedValue → PyVal
  | .string s => .str s
  | .numeric q => .decimal q
  | .boolean b => .bool b
  | .select v => v
  | .selectMultiple v => v

namespace StringType

/-- `StringType._assert_valid_value_and_cast`: `value = value or ""`, then
the value must be a `str`. -/
def _assert_valid_value_and_cast (value : PyVal) : Except PyError String :=
  let value := if value.truthy then value else .str ""
  match value with
  | .str s => .ok s
  | v => .error (.assertionError (v.pyStr ++ " is not a valid string type."))

end StringType

namespace NumericType

/-- `NumericType.EPSILON = Decimal('0.000001')`. -/
def EPSILON : ℚ := 1 / 1000000

/-- `NumericType._assert_valid_value_and_cast`: floats go through
`float_to_decimal`, ints (including `bool`, a subclass of `int`) through
exact `Decimal(value)`, `Decimal`s are kept; anything else is rejected. -/
def _assert_valid_value_and_cast (value : PyVal) : Except PyError ℚ :=
  match value with
  | .float n k => .ok (float_to_decimal n k)
  | .bool b => .ok (if b then 1 else 0)
  | .int n => .ok (n : ℚ)
  | .decimal q => .ok q
  | v => .error (.assertionError (v.pyStr ++ " is not a valid numeric type."))

/-- `NumericType.equal_to`: `abs(self.value - other_numeric) <= EPSILON`. -/
def equal_to (a b : ℚ) : Bool := |a - b| ≤ EPSILON

/-- `NumericType.greater_than`: `(self.value - other_numeric) > EPSILON`. -/
def greater_than (a b : ℚ) : Bool := a - b > EPSILON

/-- `NumericType.greater_than_or_equal_to`. -/
def greater_than_or_equal_to (a b : ℚ) : Bool :=
  greater_than a b || equal_to a b

/-- `NumericType.less_than`: `(other_numeric - self.value) > EPSILON`. -/
def less_than (a b : ℚ) : Bool := b - a > EPSILON

/-- `NumericType.less_than_or_equal_to`. -/
def less_than_or_equal_to (a b : ℚ) : Bool :=
  less_than a b || equal_to a b

end NumericType

namespace BooleanType

/-- `BooleanType._assert_valid_value_and_cast`: only a `bool` is accepted. -/
def _assert_valid_value_and_cast (value : PyVal) : Except PyError Bool :=
  match value with
  | .bool b => .ok b
  | v => .error (.assertionError (v.pyStr ++ " is not a valid boolean type"))

end BooleanType

namespace SelectType

/-- `SelectType._assert_valid_value_and_cast`: the value must expose
`__iter__`; it is stored unchanged (so a plain string is accepted and later
iterated over its characters). -/
def _assert_valid_value_and_cast (value : PyVal) : Except PyError PyVal :=
  match pyIter value with
  | some _ => .ok value
  | Option.none => .error (.assertionError (value.pyStr ++ " is not a valid select type"))

/-- `SelectType._case_insensitive_equal_to`: lower-cased comparison when
both operands are strings, Python `==` otherwise. -/
def _case_insensitive_equal_to (value_from_list other_value : PyVal) : Bool :=
  match value_from_list, other_value with
  | .str a, .str b => pyLower a == pyLower b
  | a, b => pyEq a b

/-- `SelectType.contains` body: iterate `self.value` (an iterable, by the
constructor invariant) and compare each element case-insensitively. -/
def contains (selfValue other_value : PyVal) : Bool :=
  ((pyIter selfValue).getD []).any fun val =>
    _case_insensitive_equal_to val other_value

/-- `SelectType.does_not_contain` body. -/
def does_not_contain (selfValue other_value : PyVal) : Bool :=
  ((pyIter selfValue).getD []).all fun val =>
    !_case_insensitive_equal_to val other_value

end SelectType

namespace SelectMultipleType

/-- `SelectMultipleType._assert_valid_value_and_cast`: same iterability
check as `SelectType`. -/
def _assert_valid_value_and_cast (value : PyVal) : Except PyError PyVal :=
  match pyIter value with
  | some _ => .ok value
  | Option.none =>
    .error (.assertionError (value.pyStr ++ " is not a valid select multiple type"))

/-- `SelectMultipleType.contains_all`: every element of the (already
coerced) argument iterable is contained in `self.value`. -/
def contains_all (selfValue other_value : PyVal) : Bool :=
  ((pyIter other_value).getD []).all fun other_val =>
    SelectType.contains selfValue other_val

/-- `SelectMultipleType.is_contained_by`: `SelectMultipleType(other_value)
.contains_all(self.value)`. -/
def is_contained_by (selfValue other_value : PyVal) : Bool :=
  contains_all other_value selfValue

/-- `SelectMultipleType.shares_at_least_one_element_with`. -/
def shares_at_least_one_element_with (selfValue other_value : PyVal) : Bool :=
  ((pyIter other_value).getD []).any fun other_val =>
    SelectType.contains selfValue other_val

/-- The `found_one` loop of `shares_exactly_one_element_with`: returns
`false` as soon as a second match is found. -/
def sharesExactlyOneLoop (selfValue : PyVal) : List PyVal → Bool → Bool
  | [], found_one => found_one
  | other_val :: rest, found_one =>
    if SelectType.contains selfValue other_val then
      if found_one then false else sharesExactlyOneLoop selfValue rest true
    else sharesExactlyOneLoop selfValue rest found_one

/-- `SelectMultipleType.shares_exactly_one_element_with`. -/
def shares_exactly_one_element_with (selfValue other_value : PyVal) : Bool :=
  sharesExactlyOneLoop selfValue ((pyIter other_value).getD []) false

/-- `SelectMultipleType.shares_no_elements_with`. -/
def shares_no_elements_with (selfValue other_value : PyVal) : Bool :=
  !shares_at_least_one_element_with selfValue other_value

end SelectMultipleType

/-- Model of Python `re.search(pattern, s)` restricted to the regex
fragment exercised by the rules considered here: for a pattern free of
regex metacharacters, `re.search` succeeds iff the pattern occurs as a
substring of `s`, returning a truthy match object, and returns `None`
otherwise. -/
def reSearch (pattern s : String) : PyVal :=
  if pattern.toList <:+: s.toList then .matchObj else .none

/-- The operator `input_type` markers `FIELD_NO_INPUT` / `FIELD_TEXT` /
`FIELD_NUMERIC` / `FIELD_SELECT` / `FIELD_SELECT_MULTIPLE` declared in
`business_rules/fields.py` (imported by the sources but itself not under
`src/`); they are opaque distinct constants, so they are embedded as an
enumeration. -/
inductive InputType where
  | noInput
  | text
  | numeric
  | select
  | selectMultiple
deriving Repr, DecidableEq

/-- `TypeError` raised by Python when a method is called with the wrong
number of arguments. -/
def arityError : Except PyError PyVal :=
  .error (.typeError "wrong number of arguments")

/-- The table of `@type_operator`-decorated methods: yields the operator's
declared `input_type` and the bound method, which takes its argument list
(`[]` for a no-input call, `[arg]` for a binary call).  Per
`type_operator`, a binary method first applies the type's
`_assert_valid_value_and_cast` to its argument, except for
`SelectType.contains` / `does_not_contain` which are declared with
`assert_type_for_arguments=False`.  `none` here means only that the name is
not a decorated operator; the real `getattr` of `engine.py` also resolves
the classes' non-operator attributes, which `getattrOperatorType` below
models on top of this table. -/
def lookupOperator (operator_type : TypedValue) (operator_name : String) :
    Option (InputType × (List PyVal → Except PyError PyVal)) :=
  match operator_type with
  | .string s =>
    match operator_name with
    | "equal_to" => some (.text, fun args =>
        match args with
        | [a] => do
          let o ← StringType._assert_valid_value_and_cast a
          pure (.bool (s == o))
        | _ => arityError)
    | "equal_to_case_insensitive" => some (.text, fun args =>
        match args with
        | [a] => do
          let o ← StringType._assert_valid_value_and_cast a
          pure (.bool (pyLower s == pyLower o))
        | _ => arityError)
    | "not_equal_to" => some (.text, fun args =>
        match args with
        | [a] => do
          let o ← StringType._assert_valid_value_and_cast a
          pure (.bool (s ≠ o))
        | _ => arityError)
    | "not_equal_to_case_insensitive" => some (.text, fun args =>
        match args with
        | [a] => do
          let o ← StringType._assert_valid_value_and_cast a
          pure (.bool (pyLower s ≠ pyLower o))
        | _ => arityError)
    | "starts_with" => some (.text, fun args =>
        match args with
        | [a] => do
          let o ← StringType._assert_valid_value_and_cast a
          pure (.bool (s.startsWith o))
        | _ => arityError)
    | "ends_with" => some (.text, fun args =>
        match args with
        | [a] => do
          let o ← StringType._assert_valid_value_and_cast a
          pure (.bool (s.endsWith o))
        | _ => arityError)
    | "contains" => some (.text, fun args =>
        match args with
        | [a] => do
          let o ← StringType._assert_valid_value_and_cast a
          pure (.bool (decide (o.toList <:+: s.toList)))
        | _ => arityError)
    | "matches_regex" => some (.text, fun args =>
        match args with
        | [a] => do
          let regex ← StringType._assert_valid_value_and_cast a
          pure (reSearch regex s)
        | _ => arityError)
    | "non_empty" => some (.noInput, fun args =>
        match args with
        | [] => pure (.bool (s ≠ ""))
        | _ => arityError)
    | _ => Option.none
  | .numeric q =>
    match operator_name with
    | "equal_to" => some (.numeric, fun args =>
        match args with
        | [a] => do
          let o ← NumericType._assert_valid_value_and_cast a
          pure (.bool (NumericType.equal_to q o))
        | _ => arityError)
    | "greater_than" => some (.numeric, fun args =>
        match args with
        | [a] => do
          let o ← NumericType._assert_valid_value_and_cast a
          pure (.bool (NumericType.greater_than q o))
        | _ => arityError)
    | "greater_than_or_equal_to" => some (.numeric, fun args =>
        match args with
        | [a] => do
          let o ← NumericType._assert_valid_value_and_cast a
          pure (.bool (NumericType.greater_than_or_equal_to q o))
        | _ => arityError)
    | "less_than" => some (.numeric, fun args =>
        match args with
        | [a] => do
          let o ← NumericType._assert_valid_value_and_cast a
          pure (.bool (NumericType.less_than q o))
        | _ => arityError)
    | "less_than_or_equal_to" => some (.numeric, fun args =>
        match args with
        | [a] => do
          let o ← NumericType._assert_valid_value_and_cast a
          pure (.bool (NumericType.less_than_or_equal_to q o))
        | _ => arityError)
    | _ => Option.none
  | .boolean b =>
    match operator_name with
    | "is_true" => some (.noInput, fun args =>
        match args with
        | [] => pure (.bool b)
        | _ => arityError)
    | "is_false" => some (.noInput, fun args =>
        match args with
        | [] => pure (.bool !b)
        | _ => arityError)
    | _ => Option.none
  | .select v =>
    match operator_name with
    | "contains" => some (.select, fun args =>
        match args with
        | [a] => pure (.bool (SelectType.contains v a))
        | _ => arityError)
    | "does_not_contain" => some (.select, fun args =>
        match args with
        | [a] => pure (.bool (SelectType.does_not_contain v a))
        | _ => arityError)
    | _ => Option.none
  | .selectMultiple v =>
    match operator_name with
    | "contains_all" => some (.selectMultiple, fun args =>
        match args with
        | [a] => do
          let o ← SelectMultipleType._assert_valid_value_and_cast a
          pure (.bool (SelectMultipleType.contains_all v o))
        | _ => arityError)
    | "is_contained_by" => some (.selectMultiple, fun args =>
        match args with
        | [a] => do
          let o ← SelectMultipleType._assert_valid_value_and_cast a
          pure (.bool (SelectMultipleType.is_contained_by v o))
        | _ => arityError)
    | "shares_at_least_one_element_with" => some (.selectMultiple, fun args =>
        match args with
        | [a] => do
          let o ← SelectMultipleType._assert_valid_value_and_cast a
          pure (.bool (SelectMultipleType.shares_at_least_one_element_with v o))
        | _ => arityError)
    | "shares_exactly_one_element_with" => some (.selectMultiple, fun args =>
        match args with
        | [a] => do
          let o ← SelectMultipleType._assert_valid_value_and_cast a
          pure (.bool (SelectMultipleType.shares_exactly_one_element_with v o))
        | _ => arityError)
    | "shares_no_elements_with" => some (.selectMultiple, fun args =>
        match args with
        | [a] => do
          let o ← SelectMultipleType._assert_valid_value_and_cast a
          pure (.bool (SelectMultipleType.shares_no_elements_with v o))
        | _ => arityError)
    | _ => Option.none

/-! ### `engine.py` -/

/-- The `field_type` attribute the `variables.py` decorators
(`numeric_rule_variable`, `string_rule_variable`, ...; that module is not
under `src/`) attach to a variable accessor: it names the `operators.py`
`BaseType` subclass that `_get_variable_value` applies
(`method.field_type(val)`). -/
inductive FieldType where
  | text
  | numeric
  | boolean
  | select
  | selectMultiple
deriving Repr, DecidableEq

/-- Apply the named `BaseType` subclass's constructor
(`method.field_type(val)`), i.e. its `_assert_valid_value_and_cast`. -/
def FieldType.cast : FieldType → PyVal → Except PyError TypedValue
  | .text, v => (StringType._assert_valid_value_and_cast v).map .string
  | .numeric, v => (NumericType._assert_valid_value_and_cast v).map .numeric
  | .boolean, v => (BooleanType._assert_valid_value_and_cast v).map .boolean
  | .select, v => (SelectType._assert_valid_value_and_cast v).map .select
  | .selectMultiple, v => (SelectMultipleType._assert_valid_value_and_cast v).map .selectMultiple

/-- A zero-argument variable accessor on a `BaseVariables` object: calling
it (`method()`) yields a raw value or raises, and it carries its declared
`field_type`. -/
structure VariableAccessor where
  field_type : FieldType
  run : Except PyError PyVal

/-- A `BaseVariables` provider object: its class name (used in error
messages) and its named accessors (`getattr(defined_variables, name, ...)`
succeeds exactly on the names the provider defines). -/
structure DefinedVariables where
  className : String
  accessors : String → Option VariableAccessor

/-- `engine._get_variable_value`: resolve the accessor by name (the
`fallback` raises `AssertionError` naming the variable and the provider
class when it is absent), call it, and cast the result with the accessor's
`field_type`. -/
def _get_variable_value (defined_variables : DefinedVariables) (name : String) :
    Except PyError TypedValue :=
  match defined_variables.accessors name with
  | Option.none =>
    .error (.assertionError ("Variable " ++ name ++ " is not defined in class "
      ++ defined_variables.className))
  | some method => do
    let val ← method.run
    method.field_type.cast val

/-- `engine._do_operator_comparison` as exercised on decorated operator
names (the operator-table surface the operator claims are about): resolve
the operator method on the typed value (the `fallback` raises
`AssertionError` naming the operator and the type when it is absent); call
it with no argument when its `input_type` is `FIELD_NO_INPUT`, and with
the comparison value otherwise.  `doOperatorComparisonGetattr` below
embeds the same source function over the full `getattr` attribute
surface. -/
def _do_operator_comparison (operator_type : TypedValue) (operator_name : String)
    (comparison_value : PyVal) : Except PyError PyVal :=
  match lookupOperator operator_type operator_name with
  | Option.none =>
    .error (.assertionError ("Operator " ++ operator_name
      ++ " does not exist for type " ++ operator_type.typeName))
  | some (input_type, method) =>
    if input_type = .noInput then method [] else method [comparison_value]

/-- The leaf fields of a condition dict: `condition['name']`,
`condition['operator']`, `condition['value']`, and the optional
`condition['value_is_variable']` entry (`none` when the key is absent). -/
structure LeafData where
  name : String
  operator : String
  value : PyVal
  value_is_variable : Option PyVal
deriving Repr

/-- `engine.check_condition`: resolve the condition's variable into a typed
value; when `'value_is_variable' in condition and condition['value_is_variable']`,
replace the literal value by the underlying value of the named variable's
typed value (`temp_value.value`; `getattr` requires the name to be a
string); then dispatch the named operator. -/
def check_condition (condition : LeafData) (defined_variables : DefinedVariables) :
    Except PyError PyVal := do
  let operator_type ← _get_variable_value defined_variables condition.name
  let value ←
    match condition.value_is_variable with
    | some viv =>
      if viv.truthy then
        match condition.value with
        | .str variable_name => do
          let temp_value ← _get_variable_value defined_variables variable_name
          pure temp_value.underlying
        | _ => Except.error (.typeError "attribute name must be string")
      else pure condition.value
    | Option.none => pure condition.value
  _do_operator_comparison operator_type condition.operator value

/-- A condition dict, encoded by the shape distinctions
`check_conditions_recursively` makes on its key list:
`all children` is the dict whose key list is exactly `['all']`, `any
children` the dict whose key list is exactly `['any']`, and
`leafDict hasAnyKey hasAllKey leaf` any other dict — `hasAnyKey` /
`hasAllKey` record whether `'any'` / `'all'` occur among its keys (with
other keys alongside), and `leaf` carries the leaf fields the
`check_condition` path would read. -/
inductive Cond where
  | all (children : List Cond)
  | any (children : List Cond)
  | leafDict (hasAnyKey hasAllKey : Bool) (leaf : LeafData)

mutual

/-- `engine.check_conditions_recursively`: an `{'all': [...]}` dict asserts
a non-empty child list and takes the conjunction left to right, returning
`False` at the first falsy child; `{'any': [...]}` dually returns `True`
at the first truthy child; any other dict asserts that neither `'any'` nor
`'all'` occurs among its keys and evaluates `check_condition`. -/
def check_conditions_recursively (defined_variables : DefinedVariables) :
    Cond → Except PyError PyVal
  | .all children =>
    if children.length ≥ 1 then ccrAllLoop defined_variables children
    else .error (.assertionError "assert len(conditions[all]) >= 1")
  | .any children =>
    if children.length ≥ 1 then ccrAnyLoop defined_variables children
    else .error (.assertionError "assert len(conditions[any]) >= 1")
  | .leafDict hasAnyKey hasAllKey leaf =>
    if hasAnyKey || hasAllKey then
      .error (.assertionError "assert not (any in keys or all in keys)")
    else check_condition leaf defined_variables

/-- The `for condition in conditions['all']` loop. -/
def ccrAllLoop (defined_variables : DefinedVariables) :
    List Cond → Except PyError PyVal
  | [] => .ok (.bool true)
  | condition :: rest =>
    match check_conditions_recursively defined_variables condition with
    | .error e => .error e
    | .ok r =>
      if r.truthy then ccrAllLoop defined_variables rest else .ok (.bool false)

/-- The `for condition in conditions['any']` loop. -/
def ccrAnyLoop (defined_variables : DefinedVariables) :
    List Cond → Except PyError PyVal
  | [] => .ok (.bool false)
  | condition :: rest =>
    match check_conditions_recursively defined_variables condition with
    | .error e => .error e
    | .ok r =>
      if r.truthy then .ok (.bool true) else ccrAnyLoop defined_variables rest

end

/-- An entry of a rule's `actions` list: `{'name': ..., 'params': ...}`;
`params` is `none` when the key is absent or its value falsy
(`action.get('params') or {}`). -/
structure ActionCall where
  name : String
  params : Option (List (String × PyVal))

/-- An action accessor on a `BaseActions` object: called with the action's
keyword parameters (`method(**params)`), it returns a result or raises. -/
structure ActionMethod where
  run : List (String × PyVal) → Except PyError PyVal

/-- A `BaseActions` provider object. -/
structure DefinedActions where
  className : String
  actions : String → Option ActionMethod

/-- Python dict item assignment `d[k] = v`: replace the value of an
existing key in place, else append the new key. -/
def dictSet (d : List (String × PyVal)) (k : String) (v : PyVal) :
    List (String × PyVal) :=
  match d with
  | [] => [(k, v)]
  | (k', v') :: rest => if k' = k then (k, v) :: rest else (k', v') :: dictSet rest k v

/-- The `for action in actions` loop of `engine.do_actions`, threading the
`actions_results` dict. -/
def doActionsLoop (defined_actions : DefinedActions)
    (actions_results : List (String × PyVal)) :
    List ActionCall → Except PyError (List (String × PyVal))
  | [] => .ok actions_results
  | action :: rest =>
    match defined_actions.actions action.name with
    | Option.none =>
      .error (.assertionError ("Action " ++ action.name
        ++ " is not defined in class " ++ defined_actions.className))
    | some method =>
      match method.run (action.params.getD []) with
      | .error e => .error e
      | .ok r => doActionsLoop defined_actions (dictSet actions_results action.name r) rest

/-- `engine.do_actions`: run each action in order, raising
`AssertionError` when the provider has no accessor of that name, and
collect the results keyed by action name. -/
def do_actions (actions : List ActionCall) (defined_actions : DefinedActions) :
    Except PyError (List (String × PyVal)) :=
  doActionsLoop defined_actions [] actions

/-- A rule dict: `rule['conditions']` and `rule['actions']`. -/
structure Rule where
  conditions : Cond
  actions : List ActionCall

/-- `engine.run`: evaluate the rule's condition tree; when it is truthy,
run the actions and return their results dict, else return the empty
dict. -/
def run (rule : Rule) (defined_variables : DefinedVariables)
    (defined_actions : DefinedActions) : Except PyError (List (String × PyVal)) := do
  let rule_triggered ← check_conditions_recursively defined_variables rule.conditions
  if rule_triggered.truthy then do_actions rule.actions defined_actions
  else pure []

/-- The `for rule in rule_list` loop of `engine.run_all`: results of
triggered rules (truthy, i.e. non-empty, action-result dicts) are
collected in order; with `stop_on_first_trigger` the list is returned at
the first triggered rule. -/
def runAllLoop (defined_variables : DefinedVariables)
    (defined_actions : DefinedActions) (stop_on_first_trigger : Bool)
    (rule_results : List (List (String × PyVal))) :
    List Rule → Except PyError (List (List (String × PyVal)))
  | [] => .ok rule_results
  | rule :: rest =>
    match run rule defined_variables defined_actions with
    | .error e => .error e
    | .ok actions_results =>
      if !actions_results.isEmpty then
        if stop_on_first_trigger then .ok (rule_results ++ [actions_results])
        else runAllLoop defined_variables defined_actions stop_on_first_trigger
          (rule_results ++ [actions_results]) rest
      else runAllLoop defined_variables defined_actions stop_on_first_trigger
        rule_results rest

/-- `engine.run_all`. -/
def run_all (rule_list : List Rule) (defined_variables : DefinedVariables)
    (defined_actions : DefinedActions) (stop_on_first_trigger : Bool) :
    Except PyError (List (List (String × PyVal))) :=
  runAllLoop defined_variables defined_actions stop_on_first_trigger [] rule_list

/-- `engine._get_first_key_in_dictionary`: `list(dictionary)[0]`. -/
def _get_first_key_in_dictionary (dictionary : List (String × PyVal)) : Option String :=
  dictionary.head?.map Prod.fst

/-- `engine.get_value`: run the rules with `stop_on_first_trigger=True`;
raise `InvalidRuleDefinition` when no rule contributed a result, or when
the first (single) collected result dict does not have exactly one entry;
otherwise return the value under the dict's first key. -/
def get_value (rule_list : List Rule) (defined_variables : DefinedVariables)
    (defined_actions : DefinedActions) : Except PyError PyVal := do
  let rule_results ← run_all rule_list defined_variables defined_actions true
  match rule_results with
  | [] => .error (.invalidRuleDefinition "No rule executed or no action found in matching rule")
  | actions_result :: _ =>
    if actions_result.length ≠ 1 then
      .error (.invalidRuleDefinition "Expected only one action to be executed.")
    else
      match actions_result with
      | (_, v) :: _ => pure v
      | [] => .error (.invalidRuleDefinition "Expected only one action to be executed.")

/-! ### Recoverable absence (modelled) and the spec's first-trigger contract -/

mutual

/-- Modelled from the spec: the repository's recoverable-absence handling
lives in its later engine variant (the `run` entry point exercised by
`tests/test_missing.py`, together with `MissingVariableException` from
`business_rules/exceptions.py`), which is not under `src/`.  Per the spec
(§4.3, §7), it evaluates the same condition tree as
`check_conditions_recursively` except that a leaf whose evaluation raises
the recoverable-absence signal evaluates to `false` instead of aborting;
every other error stays fatal. -/
def checkConditionsRecursivelyRec (defined_variables : DefinedVariables) :
    Cond → Except PyError PyVal
  | .all children =>
    if children.length ≥ 1 then ccrRecAllLoop defined_variables children
    else .error (.assertionError "assert len(conditions[all]) >= 1")
  | .any children =>
    if children.length ≥ 1 then ccrRecAnyLoop defined_variables children
    else .error (.assertionError "assert len(conditions[any]) >= 1")
  | .leafDict hasAnyKey hasAllKey leaf =>
    if hasAnyKey || hasAllKey then
      .error (.assertionError "assert not (any in keys or all in keys)")
    else
      match check_condition leaf defined_variables with
      | .error .missingVariable => .ok (.bool false)
      | r => r

/-- Modelled from the spec: the `all` loop of the recoverable variant. -/
def ccrRecAllLoop (defined_variables : DefinedVariables) :
    List Cond → Except PyError PyVal
  | [] => .ok (.bool true)
  | condition :: rest =>
    match checkConditionsRecursivelyRec defined_variables condition with
    | .error e => .error e
    | .ok r =>
      if r.truthy then ccrRecAllLoop defined_variables rest else .ok (.bool false)

/-- Modelled from the spec: the `any` loop of the recoverable variant. -/
def ccrRecAnyLoop (defined_variables : DefinedVariables) :
    List Cond → Except PyError PyVal
  | [] => .ok (.bool false)
  | condition :: rest =>
    match checkConditionsRecursivelyRec defined_variables condition with
    | .error e => .error e
    | .ok r =>
      if r.truthy then .ok (.bool true) else ccrRecAnyLoop defined_variables rest

end

/-- Modelled from the spec: the one-rule entry point of the
recoverable-absence engine variant (`evaluate_one` in spec §6): evaluate
the condition tree with recoverable-absence handling; when it is truthy run
the rule's actions and return their outcome, otherwise report `none` (the
rule did not trigger); errors other than the recoverable-absence signal
propagate. -/
def runRecoverable (rule : Rule) (defined_variables : DefinedVariables)
    (defined_actions : DefinedActions) :
    Except PyError (Option (List (String × PyVal))) := do
  let rule_triggered ← checkConditionsRecursivelyRec defined_variables rule.conditions
  if rule_triggered.truthy then do
    let results ← do_actions rule.actions defined_actions
    pure (some results)
  else pure Option.none

/-- The spec's first-trigger contract (§4.5), stated in its own words as a
reference definition: evaluate rules in list order; return the action
outcome of the first rule whose condition tree evaluates true; fail when
none match, or when the matched rule's outcome has more than one result.
The spec's `NoRuleTriggered` failure is the engine's
`InvalidRuleDefinition` exception (the only failure class `get_value`
raises). -/
def firstTriggerSpec (defined_variables : DefinedVariables)
    (defined_actions : DefinedActions) : List Rule → Except PyError PyVal
  | [] => .error (.invalidRuleDefinition "No rule executed or no action found in matching rule")
  | rule :: rest =>
    match check_conditions_recursively defined_variables rule.conditions with
    | .error e => .error e
    | .ok t =>
      if t.truthy then
        match do_actions rule.actions defined_actions with
        | .error e => .error e
        | .ok outcome =>
          match outcome with
          | [(_, v)] => .ok v
          | _ => .error (.invalidRuleDefinition "Expected only one action to be executed.")
      else firstTriggerSpec defined_variables defined_actions rest

/-! ### Helper predicates for the theorems -/

/-- The condition evaluates without raising. -/
def EvalOk (dv : DefinedVariables) (c : Cond) : Prop :=
  ∃ v, check_conditions_recursively dv c = .ok v

/-- The truth value of an errorless evaluation (`false` on error). -/
def resTruthy (dv : DefinedVariables) (c : Cond) : Bool :=
  match check_conditions_recursively dv c with
  | .ok v => v.truthy
  | .error _ => false

/-- The condition evaluates without raising, to a truthy value. -/
def EvalsTruthy (dv : DefinedVariables) (c : Cond) : Prop :=
  ∃ v, check_conditions_recursively dv c = .ok v ∧ v.truthy = true

/-- The condition evaluates without raising, to a falsy value. -/
def EvalsFalsy (dv : DefinedVariables) (c : Cond) : Prop :=
  ∃ v, check_conditions_recursively dv c = .ok v ∧ v.truthy = false

/-- The recoverable-variant condition evaluates to a truthy value. -/
def EvalsTruthyRec (dv : DefinedVariables) (c : Cond) : Prop :=
  ∃ v, checkConditionsRecursivelyRec dv c = .ok v ∧ v.truthy = true

/-- Whether a result is the `InvalidRuleDefinition` exception. -/
def isInvalidRuleDefinitionError {α : Type} : Except PyError α → Bool
  | .error (.invalidRuleDefinition _) => true
  | _ => false

/-- Whether an embedded Python value is a `bool`. -/
def PyVal.isBool : PyVal → Bool
  | .bool _ => true
  | _ => false

/-- Whether an embedded Python value is a `str`. -/
def PyVal.isStr : PyVal → Bool
  | .str _ => true
  | _ => false

/-! ### Concrete fixtures used by witnesses and counterexamples -/

/-- A concrete variable provider, mirroring the test fixture
(`ProductVariables`): numeric inventory/expiration accessors, a text
accessor, an accessor raising the recoverable-absence signal, and an
accessor raising an unrelated error. -/
def dvW : DefinedVariables :=
  ⟨"ProductVariables", fun name =>
    match name with
    | "current_inventory" => some ⟨FieldType.numeric, .ok (.int 21)⟩
    | "expiration_days" => some ⟨FieldType.numeric, .ok (.int 3)⟩
    | "current_month" => some ⟨FieldType.text, .ok (.str "October")⟩
    | "month_copy" => some ⟨FieldType.text, .ok (.str "October")⟩
    | "missing_payment" => some ⟨FieldType.text, .error .missingVariable⟩
    | "broken_var" => some ⟨FieldType.text, .error (.assertionError "boom")⟩
    | "none_text" => some ⟨FieldType.text, .ok .none⟩
    | _ => Option.none⟩

/-- A concrete action provider with two actions. -/
def daW : DefinedActions :=
  ⟨"ProductActions", fun name =>
    match name with
    | "put_on_sale" => some ⟨fun _ => .ok (.str "sale")⟩
    | "order_more" => some ⟨fun _ => .ok (.int 40)⟩
    | _ => Option.none⟩

/-- Leaf condition that evaluates truthy under `dvW`. -/
def leafTrue : LeafData := ⟨"current_inventory", "greater_than", .int 20, Option.none⟩

/-- Leaf condition that evaluates falsy under `dvW`. -/
def leafFalse : LeafData := ⟨"current_inventory", "less_than", .int 20, Option.none⟩

/-- Leaf condition whose variable is not defined on `dvW`. -/
def leafUndefined : LeafData := ⟨"undefined_var", "equal_to", .int 1, Option.none⟩

/-- Truthy / falsy / raising condition-dict nodes. -/
def condTrue : Cond := .leafDict false false leafTrue

/-- Falsy leaf node. -/
def condFalse : Cond := .leafDict false false leafFalse

/-- Leaf node whose evaluation raises (undefined variable). -/
def condErr : Cond := .leafDict false false leafUndefined

/-! ### C1: composite `all`/`any` semantics -/

theorem ccrAllLoop_ok (dv : DefinedVariables) :
    ∀ cs : List Cond, (∀ c ∈ cs, EvalOk dv c) →
      ccrAllLoop dv cs = .ok (.bool (cs.all fun x => resTruthy dv x)) := by
  intro cs
  induction cs with
  | nil => intro _; simp [ccrAllLoop]
  | cons c rest ih =>
    intro h
    obtain ⟨v, hv⟩ := h c (List.mem_cons_self c rest)
    have hres : resTruthy dv c = v.truthy := by simp [resTruthy, hv]
    cases hb : v.truthy with
    | false => simp [ccrAllLoop, hv, hb, hres]
    | true =>
      have := ih (fun x hx => h x (List.mem_cons_of_mem c hx))
      simp [ccrAllLoop, hv, hb, hres, this]

theorem ccrAnyLoop_ok (dv : DefinedVariables) :
    ∀ cs : List Cond, (∀ c ∈ cs, EvalOk dv c) →
      ccrAnyLoop dv cs = .ok (.bool (cs.any fun x => resTruthy dv x)) := by
  intro cs
  induction cs with
  | nil => intro _; simp [ccrAnyLoop]
  | cons c rest ih =>
    intro h
    obtain ⟨v, hv⟩ := h c (List.mem_cons_self c rest)
    have hres : resTruthy dv c = v.truthy := by simp [resTruthy, hv]
    cases hb : v.truthy with
    | true => simp [ccrAnyLoop, hv, hb, hres]
    | false =>
      have := ih (fun x hx => h x (List.mem_cons_of_mem c hx))
      simp [ccrAnyLoop, hv, hb, hres, this]

theorem ccrAllLoop_shortcircuit (dv : DefinedVariables) (c : Cond) (post : List Cond) :
    ∀ pre : List Cond, (∀ p ∈ pre, EvalsTruthy dv p) → EvalsFalsy dv c →
      ccrAllLoop dv (pre ++ c :: post) = .ok (.bool false) := by
  intro pre
  induction pre with
  | nil =>
    intro _ hc
    obtain ⟨v, hv, hvf⟩ := hc
    simp [ccrAllLoop, hv, hvf]
  | cons p pre' ih =>
    intro hpre hc
    obtain ⟨v, hv, hvt⟩ := hpre p (List.mem_cons_self p pre')
    have := ih (fun x hx => hpre x (List.mem_cons_of_mem p hx)) hc
    simp [ccrAllLoop, hv, hvt, this]

theorem ccrAnyLoop_shortcircuit (dv : DefinedVariables) (c : Cond) (post : List Cond) :
    ∀ pre : List Cond, (∀ p ∈ pre, EvalsFalsy dv p) → EvalsTruthy dv c →
      ccrAnyLoop dv (pre ++ c :: post) = .ok (.bool true) := by
  intro pre
  induction pre with
  | nil =>
    intro _ hc
    obtain ⟨v, hv, hvt⟩ := hc
    simp [ccrAnyLoop, hv, hvt]
  | cons p pre' ih =>
    intro hpre hc
    obtain ⟨v, hv, hvf⟩ := hpre p (List.mem_cons_self p pre')
    have := ih (fun x hx => hpre x (List.mem_cons_of_mem p hx)) hc
    simp [ccrAnyLoop, hv, hvf, this]

/-- C1: for a composite node whose key set is exactly `{'all'}` (resp.
`{'any'}`) with a non-empty child list, `check_conditions_recursively`
returns the logical AND (resp. OR) of the children's truth values,
evaluated strictly left to right with short-circuiting: once a prefix of
truthy children is followed by a falsy child, an ALL node returns `false`
whatever comes later (in particular, later children — and any variable
accessors they would consult — are never evaluated, since even children
whose evaluation would raise do not affect the result); dually an ANY node
returns `true` at its first truthy child. -/
theorem claim_c1 (dv : DefinedVariables) (cs pre post : List Cond) (c : Cond) :
    (cs ≠ [] → (∀ x ∈ cs, EvalOk dv x) →
      check_conditions_recursively dv (.all cs)
          = .ok (.bool (cs.all fun x => resTruthy dv x))
      ∧ check_conditions_recursively dv (.any cs)
          = .ok (.bool (cs.any fun x => resTruthy dv x)))
    ∧ ((∀ p ∈ pre, EvalsTruthy dv p) → EvalsFalsy dv c →
      check_conditions_recursively dv (.all (pre ++ c :: post)) = .ok (.bool false))
    ∧ ((∀ p ∈ pre, EvalsFalsy dv p) → EvalsTruthy dv c →
      check_conditions_recursively dv (.any (pre ++ c :: post)) = .ok (.bool true)) := by
  refine ⟨fun hne h => ⟨?_, ?_⟩, fun hpre hc => ?_, fun hpre hc => ?_⟩
  · have hlen : cs.length ≥ 1 := by
      cases cs with
      | nil => exact absurd rfl hne
      | cons a l => simp
    simp [check_conditions_recursively, hlen, ccrAllLoop_ok dv cs h]
  · have hlen : cs.length ≥ 1 := by
      cases cs with
      | nil => exact absurd rfl hne
      | cons a l => simp
    simp [check_conditions_recursively, hlen, ccrAnyLoop_ok dv cs h]
  · have hlen : (pre ++ c :: post).length ≥ 1 := by simp; omega
    simp [check_conditions_recursively, hlen,
      ccrAllLoop_shortcircuit dv c post pre hpre hc]
  · have hlen : (pre ++ c :: post).length ≥ 1 := by simp; omega
    simp [check_conditions_recursively, hlen,
      ccrAnyLoop_shortcircuit dv c post pre hpre hc]

theorem condTrue_eval : check_conditions_recursively dvW condTrue = .ok (.bool true) := by
  simp [check_conditions_recursively, condTrue, leafTrue, check_condition,
    _get_variable_value, dvW, FieldType.cast, NumericType._assert_valid_value_and_cast,
    _do_operator_comparison, lookupOperator, NumericType.greater_than, NumericType.EPSILON,
    bind, Except.bind, Except.map, pure, Except.pure]
  norm_num

theorem condFalse_eval : check_conditions_recursively dvW condFalse = .ok (.bool false) := by
  simp [check_conditions_recursively, condFalse, leafFalse, check_condition,
    _get_variable_value, dvW, FieldType.cast, NumericType._assert_valid_value_and_cast,
    _do_operator_comparison, lookupOperator, NumericType.less_than, NumericType.EPSILON,
    bind, Except.bind, Except.map, pure, Except.pure]
  norm_num

theorem condErr_eval : check_conditions_recursively dvW condErr
    = .error (.assertionError "Variable undefined_var is not defined in class ProductVariables") := by
  simp [check_conditions_recursively, condErr, leafUndefined, check_condition,
    _get_variable_value, dvW, bind, Except.bind]

/-- Witness for C1 at concrete inputs: the ALL node with a falsy child
short-circuits past a child that would raise; the ANY node dually; and the
errorless AND/OR values come out right. -/
theorem claim_c1_witness :
    check_conditions_recursively dvW (.all [condTrue, condFalse, condErr]) = .ok (.bool false)
    ∧ check_conditions_recursively dvW (.any [condFalse, condTrue, condErr]) = .ok (.bool true)
    ∧ check_conditions_recursively dvW (.all [condTrue, condTrue]) = .ok (.bool true)
    ∧ check_conditions_recursively dvW (.any [condFalse, condFalse]) = .ok (.bool false) := by
  have hT : EvalsTruthy dvW condTrue := ⟨.bool true, condTrue_eval, rfl⟩
  have hF : EvalsFalsy dvW condFalse := ⟨.bool false, condFalse_eval, rfl⟩
  refine ⟨?_, ?_, ?_, ?_⟩
  · exact (claim_c1 dvW [] [condTrue] [condErr] condFalse).2.1
      (by intro p hp; simp at hp; subst hp; exact hT) hF
  · exact (claim_c1 dvW [] [condFalse] [condErr] condTrue).2.2
      (by intro p hp; simp at hp; subst hp; exact hF) hT
  · have h := (claim_c1 dvW [condTrue, condTrue] [] [] condTrue).1 (by simp)
      (by intro x hx; simp at hx; subst hx; exact ⟨_, condTrue_eval⟩)
    simpa [resTruthy, condTrue_eval] using h.1
  · have h := (claim_c1 dvW [condFalse, condFalse] [] [] condFalse).1 (by simp)
      (by intro x hx; simp at hx; subst hx; exact ⟨_, condFalse_eval⟩)
    simpa [resTruthy, condFalse_eval] using h.2

/-! ### C2: epsilon-based numeric comparison semantics -/

/-- C2: for exact decimal values `a`, `b`: `equal_to` holds iff
`|a − b| ≤ ε` with `ε = EPSILON = 1e−6`; `greater_than` iff `a − b > ε`
and `less_than` iff `b − a > ε`, so within epsilon neither strict
comparison holds (in particular `equal_to a (a + ε/2)` is true and
`equal_to a (a + 2ε)` is false); and the or-equal comparisons are the
disjunction of the strict one and `equal_to`. -/
theorem claim_c2 (a b : ℚ) :
    NumericType.EPSILON = 1 / 1000000
    ∧ (NumericType.equal_to a b = true ↔ |a - b| ≤ NumericType.EPSILON)
    ∧ (NumericType.greater_than a b = true ↔ a - b > NumericType.EPSILON)
    ∧ (NumericType.less_than a b = true ↔ b - a > NumericType.EPSILON)
    ∧ (|a - b| ≤ NumericType.EPSILON →
        NumericType.greater_than a b = false ∧ NumericType.less_than a b = false)
    ∧ NumericType.equal_to a (a + NumericType.EPSILON / 2) = true
    ∧ NumericType.equal_to a (a + 2 * NumericType.EPSILON) = false
    ∧ NumericType.greater_than_or_equal_to a b
        = (NumericType.greater_than a b || NumericType.equal_to a b)
    ∧ NumericType.less_than_or_equal_to a b
        = (NumericType.less_than a b || NumericType.equal_to a b) := by
  refine ⟨rfl, by simp [NumericType.equal_to], by simp [NumericType.greater_than],
    by simp [NumericType.less_than], fun h => ⟨?_, ?_⟩, ?_, ?_, rfl, rfl⟩
  · rw [abs_le] at h
    simp only [NumericType.greater_than, decide_eq_false_iff_not, not_lt]
    linarith [h.2]
  · rw [abs_le] at h
    simp only [NumericType.less_than, decide_eq_false_iff_not, not_lt]
    linarith [h.1]
  · simp only [NumericType.equal_to, decide_eq_true_eq]
    rw [show a - (a + NumericType.EPSILON / 2) = -(NumericType.EPSILON / 2) by ring,
      abs_neg, abs_of_nonneg (by norm_num [NumericType.EPSILON])]
    norm_num [NumericType.EPSILON]
  · simp only [NumericType.equal_to, decide_eq_false_iff_not, not_le]
    rw [show a - (a + 2 * NumericType.EPSILON) = -(2 * NumericType.EPSILON) by ring,
      abs_neg, abs_of_nonneg (by norm_num [NumericType.EPSILON])]
    norm_num [NumericType.EPSILON]

/-- Witness for C2 at `a = b = 0`: values within epsilon are neither
strictly greater nor strictly less. -/
theorem claim_c2_witness :
    NumericType.greater_than 0 0 = false ∧ NumericType.less_than 0 0 = false :=
  (claim_c2 0 0).2.2.2.2.1 (by norm_num [NumericType.EPSILON])

/-! ### C6: exact float-to-decimal coercion -/

theorem floatToDecimalLoop_eq (n : Int) (k : Nat) :
    ∀ i, floatToDecimalLoop n k i = (n : ℚ) / 2 ^ k := by
  have key : ∀ m i, sigDigits (n * 5 ^ k).natAbs - i ≤ m →
      floatToDecimalLoop n k i = (n : ℚ) / 2 ^ k := by
    intro m
    induction m with
    | zero =>
      intro i h
      have h2 : i < 2 ^ i := Nat.lt_two_pow i
      have hexact : divideIsExact n k (60 * 2 ^ i) = true := by
        simp only [divideIsExact, decide_eq_true_eq]
        omega
      rw [floatToDecimalLoop]
      simp [hexact]
    | succ m ih =>
      intro i h
      rw [floatToDecimalLoop]
      by_cases hd : divideIsExact n k (60 * 2 ^ i) = true
      · simp [hd]
      · have h2 : i < 2 ^ i := Nat.lt_two_pow i
        simp only [divideIsExact, decide_eq_true_eq] at hd
        simp only [divideIsExact, decide_eq_true_eq, hd, if_false]
        exact ih (i + 1) (by omega)
  exact fun i => key _ i le_rfl

/-- C6: `float_to_decimal` is an exact round-trip — for every binary float
(the dyadic rational `n / 2 ^ k` produced by `as_integer_ratio`) the
doubling-precision division loop terminates with the exact rational value;
in particular the float literal `0.25` (`1 / 2 ^ 2`) coerced by
`NumericType` compares `equal_to` the value coerced from the exact
`Decimal('0.25')`. -/
theorem claim_c6 :
    (∀ (n : Int) (k : Nat), float_to_decimal n k = (n : ℚ) / 2 ^ k)
    ∧ NumericType._assert_valid_value_and_cast (.float 1 2) = .ok (1 / 4 : ℚ)
    ∧ NumericType._assert_valid_value_and_cast (.decimal (1 / 4)) = .ok (1 / 4 : ℚ)
    ∧ NumericType.equal_to (float_to_decimal 1 2) (1 / 4) = true := by
  have hftd : ∀ (n : Int) (k : Nat), float_to_decimal n k = (n : ℚ) / 2 ^ k :=
    fun n k => floatToDecimalLoop_eq n k 0
  refine ⟨hftd, ?_, rfl, ?_⟩
  · simp [NumericType._assert_valid_value_and_cast, hftd 1 2]
    norm_num
  · rw [hftd 1 2]
    simp [NumericType.equal_to, NumericType.EPSILON]
    norm_num

/-! ### C3: first-trigger mode -/

theorem dictSet_length_ge (k : String) (v : PyVal) :
    ∀ d : List (String × PyVal), d.length ≤ (dictSet d k v).length := by
  intro d
  induction d with
  | nil => simp [dictSet]
  | cons p rest ih =>
    obtain ⟨k', v'⟩ := p
    by_cases h : k' = k
    · simp [dictSet, h]
    · simp only [dictSet, h, if_false, List.length_cons]
      omega

theorem doActionsLoop_length (da : DefinedActions) :
    ∀ (acts : List ActionCall) (acc d : List (String × PyVal)),
      doActionsLoop da acc acts = .ok d → acc.length ≤ d.length := by
  intro acts
  induction acts with
  | nil =>
    intro acc d h
    simp [doActionsLoop] at h
    rw [h]
  | cons a rest ih =>
    intro acc d h
    cases hm : da.actions a.name with
    | none => simp [doActionsLoop, hm] at h
    | some m =>
      cases hr : m.run (a.params.getD []) with
      | error e => simp [doActionsLoop, hm, hr] at h
      | ok r =>
        simp only [doActionsLoop, hm, hr] at h
        calc acc.length ≤ (dictSet acc a.name r).length := dictSet_length_ge a.name r acc
          _ ≤ d.length := ih (dictSet acc a.name r) d h

theorem do_actions_ne_nil (acts : List ActionCall) (da : DefinedActions)
    (d : List (String × PyVal)) (hne : acts ≠ []) (h : do_actions acts da = .ok d) :
    d ≠ [] := by
  cases acts with
  | nil => exact absurd rfl hne
  | cons a rest =>
    rw [do_actions] at h
    cases hm : da.actions a.name with
    | none => simp [doActionsLoop, hm] at h
    | some m =>
      cases hr : m.run (a.params.getD []) with
      | error e => simp [doActionsLoop, hm, hr] at h
      | ok r =>
        simp only [doActionsLoop, hm, hr] at h
        have h1 : (dictSet [] a.name r).length ≤ d.length := doActionsLoop_length da rest _ d h
        simp [dictSet] at h1
        intro hd
        rw [hd] at h1
        simp at h1

/-- C3: under the spec's rule shape (every rule declares at least one
action), `get_value` implements the spec's first-trigger contract: rules
are evaluated in list order, the action outcome of the first rule whose
condition tree evaluates truthy is returned (later rules, however
unconditionally true, contribute nothing), evaluation fails with the
engine's `InvalidRuleDefinition` (the spec's `NoRuleTriggered`) when no
rule matches and when the matched rule's outcome has more than one
result. -/
theorem claim_c3 (rules : List Rule) (dv : DefinedVariables) (da : DefinedActions)
    (h : ∀ r ∈ rules, r.actions ≠ []) :
    get_value rules dv da = firstTriggerSpec dv da rules := by
  induction rules with
  | nil => simp [get_value, run_all, runAllLoop, firstTriggerSpec, bind, Except.bind]
  | cons r rest ih =>
    cases hc : check_conditions_recursively dv r.conditions with
    | error e =>
      simp [get_value, run_all, runAllLoop, run, firstTriggerSpec, hc, bind, Except.bind]
    | ok t =>
      by_cases ht : t.truthy = true
      · cases hd : do_actions r.actions da with
        | error e =>
          simp [get_value, run_all, runAllLoop, run, firstTriggerSpec, hc, ht, hd,
            bind, Except.bind]
        | ok outcome =>
          have hne : outcome ≠ [] :=
            do_actions_ne_nil r.actions da outcome (h r (List.mem_cons_self r rest)) hd
          cases outcome with
          | nil => exact absurd rfl hne
          | cons x xs =>
            obtain ⟨kx, vx⟩ := x
            cases xs with
            | nil =>
              simp [get_value, run_all, runAllLoop, run, firstTriggerSpec, hc, ht, hd,
                bind, Except.bind, pure, Except.pure]
            | cons y ys =>
              simp [get_value, run_all, runAllLoop, run, firstTriggerSpec, hc, ht, hd,
                bind, Except.bind, pure, Except.pure]
      · have hrest := ih (fun x hx => h x (List.mem_cons_of_mem r hx))
        simp only [get_value, run_all, bind, Except.bind, pure, Except.pure] at hrest ⊢
        simp only [runAllLoop, run, firstTriggerSpec, hc, ht, bind, Except.bind,
          pure, Except.pure]
        simpa using hrest

/-- Rule fixture: falsy condition. -/
def ruleA : Rule := ⟨.all [condFalse], [⟨"put_on_sale", Option.none⟩]⟩

/-- Rule fixture: truthy condition. -/
def ruleB : Rule := ⟨.all [condTrue], [⟨"order_more", Option.none⟩]⟩

/-- Witness for C3: of two rules, the first with a falsy condition and the
second with a truthy one, first-trigger mode returns only the second
rule's outcome. -/
theorem claim_c3_witness : get_value [ruleA, ruleB] dvW daW = .ok (.int 40) := by
  have h := claim_c3 [ruleA, ruleB] dvW daW
    (by
      intro r hr
      simp only [List.mem_cons, List.mem_singleton] at hr
      rcases hr with h | h | h <;> first
        | (subst h; simp [ruleA, ruleB])
        | simp at h)
  rw [h]
  have h1 : ccrAllLoop dvW [condFalse] = .ok (.bool false) := by
    simp only [ccrAllLoop, condFalse_eval, PyVal.truthy]
    simp
  have h2 : ccrAllLoop dvW [condTrue] = .ok (.bool true) := by
    simp only [ccrAllLoop, condTrue_eval, PyVal.truthy]
    simp [ccrAllLoop]
  have hA : check_conditions_recursively dvW (.all [condFalse]) = .ok (.bool false) := by
    simp only [check_conditions_recursively]
    simpa using h1
  have hB : check_conditions_recursively dvW (.all [condTrue]) = .ok (.bool true) := by
    simp only [check_conditions_recursively]
    simpa using h2
  simp [firstTriggerSpec, ruleA, ruleB, hA, hB, do_actions, doActionsLoop, daW,
    dictSet, PyVal.truthy, pure, Except.pure]

/-! ### C4: recoverable absence (modelled from the spec) -/

theorem ccrRecAllLoop_shortcircuit (dv : DefinedVariables) (c : Cond) (post : List Cond) :
    ∀ pre : List Cond, (∀ p ∈ pre, EvalsTruthyRec dv p) →
      (∃ v, checkConditionsRecursivelyRec dv c = .ok v ∧ v.truthy = false) →
      ccrRecAllLoop dv (pre ++ c :: post) = .ok (.bool false) := by
  intro pre
  induction pre with
  | nil =>
    intro _ hc
    obtain ⟨v, hv, hvf⟩ := hc
    simp [ccrRecAllLoop, hv, hvf]
  | cons p pre' ih =>
    intro hpre hc
    obtain ⟨v, hv, hvt⟩ := hpre p (List.mem_cons_self p pre')
    have := ih (fun x hx => hpre x (List.mem_cons_of_mem p hx)) hc
    simp [ccrRecAllLoop, hv, hvt, this]

/-- C4 (spec-modelled): when the accessor behind a leaf's variable raises
the recoverable-absence signal, the recoverable evaluator treats exactly
that leaf as evaluating `false` — inside an `all` composite the rule then
simply does not trigger and `runRecoverable` reports no error — while an
accessor raising any other error stays fatal. -/
theorem claim_c4 (dv : DefinedVariables) (da : DefinedActions) (leaf : LeafData)
    (acc : VariableAccessor) (pre : List Cond) (acts : List ActionCall) (e : PyError) :
    (dv.accessors leaf.name = some acc → acc.run = .error .missingVariable →
      checkConditionsRecursivelyRec dv (.leafDict false false leaf) = .ok (.bool false))
    ∧ (dv.accessors leaf.name = some acc → acc.run = .error .missingVariable →
      (∀ p ∈ pre, EvalsTruthyRec dv p) →
      runRecoverable ⟨.all (pre ++ [.leafDict false false leaf]), acts⟩ dv da
        = .ok Option.none)
    ∧ (dv.accessors leaf.name = some acc → acc.run = .error e →
      e ≠ .missingVariable →
      checkConditionsRecursivelyRec dv (.leafDict false false leaf) = .error e) := by
  refine ⟨fun h1 h2 => ?_, fun h1 h2 hpre => ?_, fun h1 h2 hne => ?_⟩
  · simp [checkConditionsRecursivelyRec, check_condition, _get_variable_value, h1, h2,
      bind, Except.bind]
  · have hleaf : checkConditionsRecursivelyRec dv (.leafDict false false leaf)
        = .ok (.bool false) := by
      simp [checkConditionsRecursivelyRec, check_condition, _get_variable_value, h1, h2,
        bind, Except.bind]
    have hloop := ccrRecAllLoop_shortcircuit dv (.leafDict false false leaf) [] pre hpre
      ⟨.bool false, hleaf, rfl⟩
    have hall : checkConditionsRecursivelyRec dv
        (.all (pre ++ [.leafDict false false leaf])) = .ok (.bool false) := by
      have hlen : (pre ++ [Cond.leafDict false false leaf]).length ≥ 1 := by
        simp
      simpa [checkConditionsRecursivelyRec, hlen] using hloop
    simp [runRecoverable, hall, bind, Except.bind, pure, Except.pure, PyVal.truthy]
  · have hcc : check_condition leaf dv = .error e := by
      simp [check_condition, _get_variable_value, h1, h2, bind, Except.bind]
    cases e with
    | missingVariable => exact absurd rfl hne
    | assertionError m => simp [checkConditionsRecursivelyRec, hcc]
    | invalidRuleDefinition m => simp [checkConditionsRecursivelyRec, hcc]
    | typeError m => simp [checkConditionsRecursivelyRec, hcc]

/-- Leaf fixture whose accessor raises the recoverable-absence signal. -/
def leafMissing : LeafData := ⟨"missing_payment", "equal_to", .str "paypal", Option.none⟩

/-- Leaf fixture whose accessor raises an unrelated error. -/
def leafBroken : LeafData := ⟨"broken_var", "equal_to", .str "x", Option.none⟩

/-- Witness for C4 at concrete inputs. -/
theorem claim_c4_witness :
    checkConditionsRecursivelyRec dvW (.leafDict false false leafMissing)
      = .ok (.bool false)
    ∧ runRecoverable ⟨.all [.leafDict false false leafMissing], [⟨"put_on_sale", Option.none⟩]⟩
        dvW daW = .ok Option.none
    ∧ checkConditionsRecursivelyRec dvW (.leafDict false false leafBroken)
      = .error (.assertionError "boom") := by
  refine ⟨?_, ?_, ?_⟩
  · exact (claim_c4 dvW daW leafMissing ⟨FieldType.text, .error .missingVariable⟩ []
      [] PyError.missingVariable).1 (by simp [dvW, leafMissing]) rfl
  · exact (claim_c4 dvW daW leafMissing ⟨FieldType.text, .error .missingVariable⟩ []
      [⟨"put_on_sale", Option.none⟩] PyError.missingVariable).2.1
      (by simp [dvW, leafMissing]) rfl (by intro p hp; simp at hp)
  · exact (claim_c4 dvW daW leafBroken ⟨FieldType.text, .error (.assertionError "boom")⟩ []
      [] (.assertionError "boom")).2.2 (by simp [dvW, leafBroken]) rfl (by simp)

/-! ### C5: malformed rules (corrected) -/

/-- Counterexample to C5 as stated: a condition dict mixing the `'all'`
key with leaf fields fails the engine's `assert` — an `AssertionError`,
not an `InvalidRuleDefinition`. -/
theorem claim_c5_counterexample :
    check_conditions_recursively dvW (.leafDict false true leafTrue)
      = .error (.assertionError "assert not (any in keys or all in keys)")
    ∧ isInvalidRuleDefinitionError
        (check_conditions_recursively dvW (.leafDict false true leafTrue)) = false := by
  have h : check_conditions_recursively dvW (.leafDict false true leafTrue)
      = .error (.assertionError "assert not (any in keys or all in keys)") := by
    simp [check_conditions_recursively]
  exact ⟨h, by rw [h]; rfl⟩

theorem allCondTrue_eval :
    check_conditions_recursively dvW (.all [condTrue]) = .ok (.bool true) := by
  have h2 : ccrAllLoop dvW [condTrue] = .ok (.bool true) := by
    simp only [ccrAllLoop, condTrue_eval, PyVal.truthy]
    simp [ccrAllLoop]
  simp only [check_conditions_recursively]
  simpa using h2

/-- C5 (amended): a composite condition dict mixing `'all'`/`'any'` with
other keys fails with `AssertionError` (not `InvalidRuleDefinition`);
through the first-trigger entry point `get_value`, a matched rule with
zero actions contributes no outcome, and when no outcome is contributed
`get_value` fails with `InvalidRuleDefinition`, as it also does when the
matched rule's outcome holds more than one action result; `run`/`run_all`
treat a matched zero-action rule as not triggered and skip it without
error. -/
theorem claim_c5 (dv : DefinedVariables) (da : DefinedActions) (leaf : LeafData)
    (hasAnyKey hasAllKey : Bool) (rule : Rule) (a1 a2 : ActionCall)
    (m1 m2 : ActionMethod) (v1 v2 : PyVal) (t : PyVal) :
    ((hasAnyKey || hasAllKey) = true →
      check_conditions_recursively dv (.leafDict hasAnyKey hasAllKey leaf)
        = .error (.assertionError "assert not (any in keys or all in keys)"))
    ∧ (rule.actions = [] → check_conditions_recursively dv rule.conditions = .ok t →
      t.truthy = true →
      get_value [rule] dv da
        = .error (.invalidRuleDefinition "No rule executed or no action found in matching rule"))
    ∧ (rule.actions = [a1, a2] → a1.name ≠ a2.name →
      da.actions a1.name = some m1 → m1.run (a1.params.getD []) = .ok v1 →
      da.actions a2.name = some m2 → m2.run (a2.params.getD []) = .ok v2 →
      check_conditions_recursively dv rule.conditions = .ok t → t.truthy = true →
      get_value [rule] dv da
        = .error (.invalidRuleDefinition "Expected only one action to be executed."))
    ∧ (rule.actions = [] → check_conditions_recursively dv rule.conditions = .ok t →
      t.truthy = true →
      run rule dv da = .ok [] ∧ run_all [rule] dv da false = .ok []) := by
  refine ⟨fun hmix => ?_, fun hacts hcond ht => ?_, ?_, fun hacts hcond ht => ⟨?_, ?_⟩⟩
  · simp only [check_conditions_recursively]
    rw [if_pos (by simpa [Bool.or_eq_true] using hmix)]
  · simp [get_value, run_all, runAllLoop, run, do_actions, doActionsLoop, hacts, hcond, ht,
      bind, Except.bind, pure, Except.pure]
  · intro hacts hne hm1 hr1 hm2 hr2 hcond ht
    simp [get_value, run_all, runAllLoop, run, do_actions, doActionsLoop, hacts, hne,
      hm1, hr1, hm2, hr2, hcond, ht, dictSet, bind, Except.bind, pure, Except.pure]
  · simp [run, do_actions, doActionsLoop, hacts, hcond, ht, bind, Except.bind,
      pure, Except.pure]
  · simp [run_all, runAllLoop, run, do_actions, doActionsLoop, hacts, hcond, ht,
      bind, Except.bind, pure, Except.pure]

/-- Rule fixture with a truthy condition and zero actions. -/
def ruleZero : Rule := ⟨.all [condTrue], []⟩

/-- Rule fixture with a truthy condition and two distinct actions. -/
def ruleTwo : Rule :=
  ⟨.all [condTrue], [⟨"put_on_sale", Option.none⟩, ⟨"order_more", Option.none⟩]⟩

/-- Witness for the amended C5 at concrete inputs. -/
theorem claim_c5_witness :
    check_conditions_recursively dvW (.leafDict true false leafTrue)
      = .error (.assertionError "assert not (any in keys or all in keys)")
    ∧ get_value [ruleZero] dvW daW
      = .error (.invalidRuleDefinition "No rule executed or no action found in matching rule")
    ∧ get_value [ruleTwo] dvW daW
      = .error (.invalidRuleDefinition "Expected only one action to be executed.")
    ∧ run ruleZero dvW daW = .ok [] := by
  refine ⟨?_, ?_, ?_, ?_⟩
  · exact (claim_c5 dvW daW leafTrue true false ruleZero ⟨"x", Option.none⟩
      ⟨"y", Option.none⟩ ⟨fun _ => .ok .none⟩ ⟨fun _ => .ok .none⟩ .none .none
      (.bool true)).1 rfl
  · exact (claim_c5 dvW daW leafTrue true false ruleZero ⟨"x", Option.none⟩
      ⟨"y", Option.none⟩ ⟨fun _ => .ok .none⟩ ⟨fun _ => .ok .none⟩ .none .none
      (.bool true)).2.1 rfl allCondTrue_eval rfl
  · exact (claim_c5 dvW daW leafTrue true false ruleTwo ⟨"put_on_sale", Option.none⟩
      ⟨"order_more", Option.none⟩ ⟨fun _ => .ok (.str "sale")⟩ ⟨fun _ => .ok (.int 40)⟩
      (.str "sale") (.int 40) (.bool true)).2.2.1 rfl (by simp) rfl rfl rfl rfl
      allCondTrue_eval rfl
  · exact ((claim_c5 dvW daW leafTrue true false ruleZero ⟨"x", Option.none⟩
      ⟨"y", Option.none⟩ ⟨fun _ => .ok .none⟩ ⟨fun _ => .ok .none⟩ .none .none
      (.bool true)).2.2.2 rfl allCondTrue_eval rfl).1

/-! ### C7: resolution errors (corrected) -/

/-- A Python attribute as the operator dispatch sees it: its `input_type`
tag when it carries one (`none` models `getattr(method, 'input_type', '')`
finding no tag), and its behaviour when called with an argument list. -/
structure PyAttr where
  input_type : Option InputType
  call : List PyVal → Except PyError PyVal

/-- `self._assert_valid_value_and_cast(arg)` resolved through the operator
dispatch: returns the coerced value itself as a raw Python value (or
raises the coercion `AssertionError` from inside the cast). -/
def castAsPyVal : TypedValue → PyVal → Except PyError PyVal
  | .string _, a => (StringType._assert_valid_value_and_cast a).map .str
  | .numeric _, a => (NumericType._assert_valid_value_and_cast a).map .decimal
  | .boolean _, a => (BooleanType._assert_valid_value_and_cast a).map .bool
  | .select _, a => SelectType._assert_valid_value_and_cast a
  | .selectMultiple _, a => SelectMultipleType._assert_valid_value_and_cast a

/-- `getattr(operator_type, operator_name, fallback)` over the full
attribute surface of the `operators.py` classes: the decorated operators
(with their `input_type` tag) and the non-operator attributes reachable on
every instance — the class attribute `name`, the instance attribute
`value`, `export_in_rule_data` (set by `@export_type`),
`NumericType.EPSILON`, the methods `_assert_valid_value_and_cast` and
`get_all_operators`, and `SelectType._case_insensitive_equal_to`.  A
non-callable attribute raises `TypeError` when called (message text
approximated); `_assert_valid_value_and_cast` called with the comparison
value returns the coerced value itself; `get_all_operators` (a classmethod
of no further arguments) and the two-argument static
`_case_insensitive_equal_to` reject the single comparison argument with
`TypeError`.  Inherited Python dunder attributes (`__init__`,
`__class__`, ...) are outside the model.  `none` means `getattr` takes the
`fallback`. -/
def getattrOperatorType (operator_type : TypedValue) (operator_name : String) :
    Option PyAttr :=
  match lookupOperator operator_type operator_name with
  | some (it, f) => some ⟨some it, f⟩
  | Option.none =>
    match operator_name with
    | "name" => some ⟨Option.none, fun _ =>
        .error (.typeError "'str' object is not callable")⟩
    | "value" => some ⟨Option.none, fun _ =>
        .error (.typeError "object is not callable")⟩
    | "export_in_rule_data" => some ⟨Option.none, fun _ =>
        .error (.typeError "'bool' object is not callable")⟩
    | "_assert_valid_value_and_cast" => some ⟨Option.none, fun args =>
        match args with
        | [a] => castAsPyVal operator_type a
        | _ => arityError⟩
    | "get_all_operators" => some ⟨Option.none, fun _ =>
        .error (.typeError "get_all_operators() takes 1 positional argument but 2 were given")⟩
    | "EPSILON" =>
      match operator_type with
      | .numeric _ => some ⟨Option.none, fun _ =>
          .error (.typeError "'decimal.Decimal' object is not callable")⟩
      | _ => Option.none
    | "_case_insensitive_equal_to" =>
      match operator_type with
      | .select _ => some ⟨Option.none, fun _ =>
          .error (.typeError "_case_insensitive_equal_to() missing 1 required positional argument")⟩
      | _ => Option.none
    | _ => Option.none

/-- `engine._do_operator_comparison` over the full `getattr` attribute
surface: the `fallback` raising the descriptive `AssertionError` is taken
only when no attribute of the name exists at all; the resolved attribute
is called with no argument exactly when its `input_type` tag equals
`FIELD_NO_INPUT` (an absent tag defaults to `''`, which never does). -/
def doOperatorComparisonGetattr (operator_type : TypedValue) (operator_name : String)
    (comparison_value : PyVal) : Except PyError PyVal :=
  match getattrOperatorType operator_type operator_name with
  | Option.none =>
    .error (.assertionError ("Operator " ++ operator_name
      ++ " does not exist for type " ++ operator_type.typeName))
  | some attr =>
    if attr.input_type = some InputType.noInput then attr.call []
    else attr.call [comparison_value]

/-- Counterexample to C7 as stated: invoking the non-operator name
`_assert_valid_value_and_cast` on a text value raises nothing — `getattr`
resolves the cast method, which returns the coerced comparison value, here
the falsy empty string, silently becoming a false leaf result; and the
non-callable attribute name `name` fails with a bare `TypeError`, not a
descriptive error identifying the offending operator name. -/
theorem claim_c7_counterexample :
    doOperatorComparisonGetattr (.string "") "_assert_valid_value_and_cast" .none
      = .ok (.str "")
    ∧ PyVal.truthy (.str "") = false
    ∧ doOperatorComparisonGetattr (.string "October") "name" (.str "x")
      = .error (.typeError "'str' object is not callable") :=
  ⟨rfl, rfl, rfl⟩

/-- C7 (amended): referencing an undefined variable or action is fatal
with a descriptive `AssertionError` naming the offender, surfaced through
`run` rather than swallowed; an operator name that resolves to no
attribute at all on the typed value likewise raises the descriptive
`AssertionError` naming the operator and the type, also from inside leaf
evaluation.  However, `getattr` also resolves the classes' non-operator
attributes, so such an operator name is not always rejected
descriptively: a non-callable attribute such as `name` fails with a bare
`TypeError`, and `_assert_valid_value_and_cast` is invoked and silently
returns the coerced comparison value as the (possibly false) leaf
result. -/
theorem claim_c7 (dv : DefinedVariables) (da : DefinedActions) (name op : String)
    (tv : TypedValue) (v : PyVal) (leaf : LeafData) (acc : VariableAccessor)
    (raw : PyVal) (a : ActionCall) (rule : Rule) (t : PyVal)
    (acts : List ActionCall) :
    (dv.accessors name = Option.none →
      _get_variable_value dv name = .error (.assertionError
        ("Variable " ++ name ++ " is not defined in class " ++ dv.className)))
    ∧ (dv.accessors leaf.name = Option.none →
      run ⟨.leafDict false false leaf, acts⟩ dv da = .error (.assertionError
        ("Variable " ++ leaf.name ++ " is not defined in class " ++ dv.className)))
    ∧ (getattrOperatorType tv op = Option.none →
      doOperatorComparisonGetattr tv op v = .error (.assertionError
        ("Operator " ++ op ++ " does not exist for type " ++ tv.typeName)))
    ∧ (dv.accessors leaf.name = some acc → acc.run = .ok raw →
      acc.field_type.cast raw = .ok tv → leaf.value_is_variable = Option.none →
      getattrOperatorType tv leaf.operator = Option.none →
      check_condition leaf dv = .error (.assertionError
        ("Operator " ++ leaf.operator ++ " does not exist for type " ++ tv.typeName)))
    ∧ doOperatorComparisonGetattr tv "name" v
      = .error (.typeError "'str' object is not callable")
    ∧ doOperatorComparisonGetattr tv "_assert_valid_value_and_cast" v = castAsPyVal tv v
    ∧ (da.actions a.name = Option.none →
      check_conditions_recursively dv rule.conditions = .ok t → t.truthy = true →
      rule.actions = [a] →
      run rule dv da = .error (.assertionError
        ("Action " ++ a.name ++ " is not defined in class " ++ da.className))) := by
  refine ⟨fun h => ?_, fun h => ?_, fun h => ?_, ?_, ?_, ?_, ?_⟩
  · simp [_get_variable_value, h]
  · simp [run, check_conditions_recursively, check_condition, _get_variable_value, h,
      bind, Except.bind]
  · simp [doOperatorComparisonGetattr, h]
  · intro h1 h2 h3 hviv hop
    have hl : lookupOperator tv leaf.operator = Option.none := by
      cases hl' : lookupOperator tv leaf.operator with
      | none => rfl
      | some p =>
        obtain ⟨it, f⟩ := p
        simp [getattrOperatorType, hl'] at hop
    simp [check_condition, _get_variable_value, _do_operator_comparison, h1, h2, h3,
      hviv, hl, bind, Except.bind, pure, Except.pure]
  · cases tv <;> rfl
  · cases tv <;> rfl
  · intro h hcond ht hacts
    simp [run, do_actions, doActionsLoop, h, hcond, ht, hacts, bind, Except.bind]

/-- Witness for the amended C7 at concrete inputs. -/
theorem claim_c7_witness :
    _get_variable_value dvW "undefined_var"
      = .error (.assertionError "Variable undefined_var is not defined in class ProductVariables")
    ∧ run ⟨.leafDict false false leafUndefined, []⟩ dvW daW
      = .error (.assertionError "Variable undefined_var is not defined in class ProductVariables")
    ∧ doOperatorComparisonGetattr (.numeric 1) "frobnicate" (.int 0)
      = .error (.assertionError "Operator frobnicate does not exist for type NumericType")
    ∧ check_condition ⟨"current_inventory", "frobnicate", .int 0, Option.none⟩ dvW
      = .error (.assertionError "Operator frobnicate does not exist for type NumericType")
    ∧ doOperatorComparisonGetattr (.string "October") "name" (.int 0)
      = .error (.typeError "'str' object is not callable")
    ∧ doOperatorComparisonGetattr (.string "") "_assert_valid_value_and_cast" (.bool false)
      = .ok (.str "")
    ∧ run ⟨.all [condTrue], [⟨"undefined_action", Option.none⟩]⟩ dvW daW
      = .error (.assertionError "Action undefined_action is not defined in class ProductActions") := by
  refine ⟨?_, ?_, ?_, ?_, ?_, ?_, ?_⟩
  · exact (claim_c7 dvW daW "undefined_var" "x" (.numeric 1) .none leafUndefined
      ⟨FieldType.text, .ok .none⟩ .none ⟨"x", Option.none⟩ ruleZero .none []).1 rfl
  · exact (claim_c7 dvW daW "undefined_var" "x" (.numeric 1) .none leafUndefined
      ⟨FieldType.text, .ok .none⟩ .none ⟨"x", Option.none⟩ ruleZero .none []).2.1 rfl
  · exact (claim_c7 dvW daW "x" "frobnicate" (.numeric 1) (.int 0) leafUndefined
      ⟨FieldType.text, .ok .none⟩ .none ⟨"x", Option.none⟩ ruleZero .none []).2.2.1 rfl
  · exact (claim_c7 dvW daW "x" "frobnicate" (.numeric 21)
      (.int 0) ⟨"current_inventory", "frobnicate", .int 0, Option.none⟩
      ⟨FieldType.numeric, .ok (.int 21)⟩ (.int 21) ⟨"x", Option.none⟩ ruleZero .none
      []).2.2.2.1 rfl rfl rfl rfl rfl
  · exact (claim_c7 dvW daW "x" "x" (.string "October") (.int 0) leafUndefined
      ⟨FieldType.text, .ok .none⟩ .none ⟨"x", Option.none⟩ ruleZero .none
      []).2.2.2.2.1
  · exact ((claim_c7 dvW daW "x" "x" (.string "") (.bool false) leafUndefined
      ⟨FieldType.text, .ok .none⟩ .none ⟨"x", Option.none⟩ ruleZero .none
      []).2.2.2.2.2.1).trans rfl
  · exact (claim_c7 dvW daW "x" "x" (.numeric 1) .none leafUndefined
      ⟨FieldType.text, .ok .none⟩ .none ⟨"undefined_action", Option.none⟩
      ⟨.all [condTrue], [⟨"undefined_action", Option.none⟩]⟩ (.bool true)
      []).2.2.2.2.2.2 rfl allCondTrue_eval rfl rfl

/-! ### C8: leaf evaluation pipeline (corrected) -/

/-- Leaf fixture exercising `matches_regex`. -/
def leafRegex : LeafData := ⟨"current_month", "matches_regex", .str "Oct", Option.none⟩

/-- Counterexample to C8 as stated: a leaf whose operator is
`matches_regex` evaluates to the operator's raw `re.search` result — a
truthy match object, not a boolean. -/
theorem claim_c8_counterexample :
    check_condition leafRegex dvW = .ok .matchObj
    ∧ PyVal.isBool .matchObj = false := by
  have hsearch : reSearch "Oct" "October" = .matchObj := by
    rw [reSearch, if_pos]
    decide
  constructor
  · simp [check_condition, leafRegex, _get_variable_value, dvW, FieldType.cast,
      StringType._assert_valid_value_and_cast, _do_operator_comparison, lookupOperator,
      hsearch, bind, Except.bind, pure, Except.pure, PyVal.truthy, Except.map]
  · rfl

/-- C8 (amended): `check_condition` resolves the leaf's variable through
the provider into a typed value; when `value_is_variable` is absent or
falsy the literal value is the comparison operand, and when it is truthy
the operand is the underlying (already coerced) value of the variable
named by the leaf's value; the named operator is dispatched from the
operator table, with no comparison argument when its `input_type` is
`FIELD_NO_INPUT`; and the leaf evaluates to the operator's returned
value — a boolean for every operator except `matches_regex` (which
returns a truthy match object or a falsy `None`). -/
theorem claim_c8 (dv : DefinedVariables) (leaf : LeafData) (acc acc2 : VariableAccessor)
    (raw raw2 w v r : PyVal) (tv tv2 : TypedValue) (vn op : String) :
    (dv.accessors leaf.name = some acc → acc.run = .ok raw →
      acc.field_type.cast raw = .ok tv →
      (leaf.value_is_variable = Option.none ∨
        (leaf.value_is_variable = some w ∧ w.truthy = false)) →
      check_condition leaf dv = _do_operator_comparison tv leaf.operator leaf.value)
    ∧ (dv.accessors leaf.name = some acc → acc.run = .ok raw →
      acc.field_type.cast raw = .ok tv →
      leaf.value_is_variable = some w → w.truthy = true → leaf.value = .str vn →
      dv.accessors vn = some acc2 → acc2.run = .ok raw2 →
      acc2.field_type.cast raw2 = .ok tv2 →
      check_condition leaf dv = _do_operator_comparison tv leaf.operator tv2.underlying)
    ∧ (∀ (it : InputType) (f : List PyVal → Except PyError PyVal),
      lookupOperator tv op = some (it, f) → it = .noInput →
      _do_operator_comparison tv op v = f [])
    ∧ (_do_operator_comparison tv op v = .ok r → op ≠ "matches_regex" →
      r.isBool = true) := by
  refine ⟨fun h1 h2 h3 h4 => ?_, fun h1 h2 h3 h4 h5 h6 h7 h8 h9 => ?_,
    fun it f h hni => ?_, fun hr hne => ?_⟩
  · rcases h4 with h4 | ⟨h4, h5⟩
    · simp [check_condition, _get_variable_value, h1, h2, h3, h4,
        bind, Except.bind, pure, Except.pure]
    · simp [check_condition, _get_variable_value, h1, h2, h3, h4, h5,
        bind, Except.bind, pure, Except.pure]
  · simp [check_condition, _get_variable_value, h1, h2, h3, h4, h5, h6, h7, h8, h9,
      bind, Except.bind, pure, Except.pure]
  · simp [_do_operator_comparison, h, hni]
  · cases tv <;>
      (simp only [_do_operator_comparison, lookupOperator] at hr
       split at hr
       · simp at hr
       · rename_i x it m heq
         split at heq
         all_goals try cases heq
         all_goals first
           | exact absurd rfl hne
           | (simp [pure, Except.pure] at hr; subst hr; rfl)
           | (cases hc : StringType._assert_valid_value_and_cast v with
              | error e => simp [hc, bind, Except.bind] at hr
              | ok o => (simp [hc, bind, Except.bind, pure, Except.pure] at hr
                         subst hr; rfl))
           | (cases hc : NumericType._assert_valid_value_and_cast v with
              | error e => simp [hc, bind, Except.bind] at hr
              | ok o => (simp [hc, bind, Except.bind, pure, Except.pure] at hr
                         subst hr; rfl))
           | (cases hc : SelectMultipleType._assert_valid_value_and_cast v with
              | error e => simp [hc, bind, Except.bind] at hr
              | ok o => (simp [hc, bind, Except.bind, pure, Except.pure] at hr
                         subst hr; rfl)))

/-- Witness for the amended C8 at concrete inputs: the literal path, the
`value_is_variable` path (the operand is the named variable's underlying
value), the independence of a `FIELD_NO_INPUT` dispatch from the
comparison value, and a boolean operator result. -/
theorem claim_c8_witness :
    check_condition ⟨"current_month", "equal_to", .str "October", Option.none⟩ dvW
      = _do_operator_comparison (.string "October") "equal_to" (.str "October")
    ∧ check_condition ⟨"current_month", "equal_to", .str "month_copy", some (.bool true)⟩ dvW
      = _do_operator_comparison (.string "October") "equal_to" (.str "October")
    ∧ _do_operator_comparison (.string "October") "non_empty" (.int 99)
      = _do_operator_comparison (.string "October") "non_empty" (.str "x")
    ∧ PyVal.isBool (.bool true) = true := by
  refine ⟨?_, ?_, ?_, ?_⟩
  · exact (claim_c8 dvW ⟨"current_month", "equal_to", .str "October", Option.none⟩
      ⟨FieldType.text, .ok (.str "October")⟩ ⟨FieldType.text, .ok (.str "October")⟩
      (.str "October") (.str "October") (.bool true) (.int 0) (.bool true)
      (.string "October") (.string "October") "m" "equal_to").1 rfl rfl rfl (Or.inl rfl)
  · exact (claim_c8 dvW ⟨"current_month", "equal_to", .str "month_copy", some (.bool true)⟩
      ⟨FieldType.text, .ok (.str "October")⟩ ⟨FieldType.text, .ok (.str "October")⟩
      (.str "October") (.str "October") (.bool true) (.int 0) (.bool true)
      (.string "October") (.string "October") "month_copy" "equal_to").2.1
      rfl rfl rfl rfl rfl rfl rfl rfl rfl
  · exact ((claim_c8 dvW leafTrue ⟨FieldType.text, .ok .none⟩ ⟨FieldType.text, .ok .none⟩
      .none .none (.bool true) (.int 99) (.bool true) (.string "October")
      (.string "October") "m" "non_empty").2.2.1 _ _ rfl rfl).trans
      (((claim_c8 dvW leafTrue ⟨FieldType.text, .ok .none⟩ ⟨FieldType.text, .ok .none⟩
      .none .none (.bool true) (.str "x") (.bool true) (.string "October")
      (.string "October") "m" "non_empty").2.2.1 _ _ rfl rfl).symm)
  · exact (claim_c8 dvW leafTrue ⟨FieldType.text, .ok .none⟩ ⟨FieldType.text, .ok .none⟩
      .none .none (.bool true) (.str "October") (.bool true) (.string "October")
      (.string "October") "m" "equal_to").2.2.2 rfl (by simp)

/-! ### C9: StringType coercion of falsy values -/

/-- C9: `StringType` coercion never fails on a falsy raw input — `None`,
`0`, `False`, or any empty value coerces to the empty string (so
`non_empty` is false and `equal_to` the empty string is true); strings
coerce to themselves; only truthy non-string inputs raise the coercion
error; and a text variable accessor returning `None` yields an
empty-string typed value rather than an error. -/
theorem claim_c9 (dv : DefinedVariables) (nm : String) (v : PyVal) (s : String) :
    (v.truthy = false → StringType._assert_valid_value_and_cast v = .ok "")
    ∧ StringType._assert_valid_value_and_cast (.str s) = .ok s
    ∧ (v.truthy = true → v.isStr = false →
      ∃ m, StringType._assert_valid_value_and_cast v = .error (.assertionError m))
    ∧ _do_operator_comparison (.string "") "non_empty" .none = .ok (.bool false)
    ∧ _do_operator_comparison (.string "") "equal_to" (.str "") = .ok (.bool true)
    ∧ (dv.accessors nm = some ⟨FieldType.text, .ok .none⟩ →
      _get_variable_value dv nm = .ok (.string "")) := by
  refine ⟨fun h => ?_, ?_, fun ht hs => ?_, rfl, rfl, fun h => ?_⟩
  · simp [StringType._assert_valid_value_and_cast, h]
  · by_cases hs : s = "" <;>
      simp [StringType._assert_valid_value_and_cast, PyVal.truthy, hs]
  · cases v <;> simp_all [StringType._assert_valid_value_and_cast, PyVal.truthy, PyVal.isStr]
  · simp [_get_variable_value, h, FieldType.cast, StringType._assert_valid_value_and_cast,
      PyVal.truthy, bind, Except.bind, Except.map]

/-- Witness for C9 at concrete inputs. -/
theorem claim_c9_witness :
    StringType._assert_valid_value_and_cast .none = .ok ""
    ∧ StringType._assert_valid_value_and_cast (.int 0) = .ok ""
    ∧ StringType._assert_valid_value_and_cast (.bool false) = .ok ""
    ∧ (∃ m, StringType._assert_valid_value_and_cast (.int 5) = .error (.assertionError m))
    ∧ _get_variable_value dvW "none_text" = .ok (.string "") := by
  refine ⟨?_, ?_, ?_, ?_, ?_⟩
  · exact (claim_c9 dvW "none_text" .none "").1 rfl
  · exact (claim_c9 dvW "none_text" (.int 0) "").1 (by decide)
  · exact (claim_c9 dvW "none_text" (.bool false) "").1 rfl
  · exact (claim_c9 dvW "none_text" (.int 5) "").2.2.1 (by decide) rfl
  · exact (claim_c9 dvW "none_text" .none "").2.2.2.2.2 rfl

/-! ### C10: Select coercion accepts any iterable, including strings -/

/-- C10: `SelectType` and `SelectMultipleType` coercion accepts exactly
the raw values exposing `__iter__` (stored unchanged), a plain string
included — a string used as a select is the collection of its characters,
so `contains` finds single characters but not multi-character substrings —
and rejects non-iterable values with the coercion error. -/
theorem claim_c10 (v : PyVal) (s : String) (xs : List PyVal) :
    SelectType._assert_valid_value_and_cast (.str s) = .ok (.str s)
    ∧ (pyIter v = some xs →
      SelectType._assert_valid_value_and_cast v = .ok v
      ∧ SelectMultipleType._assert_valid_value_and_cast v = .ok v)
    ∧ (pyIter v = Option.none →
      (∃ m, SelectType._assert_valid_value_and_cast v = .error (.assertionError m))
      ∧ (∃ m, SelectMultipleType._assert_valid_value_and_cast v = .error (.assertionError m)))
    ∧ _do_operator_comparison (.select (.str "abc")) "contains" (.str "a") = .ok (.bool true)
    ∧ _do_operator_comparison (.select (.str "abc")) "contains" (.str "abc") = .ok (.bool false) := by
  refine ⟨?_, fun h => ⟨?_, ?_⟩, fun h => ⟨?_, ?_⟩, rfl, rfl⟩
  · simp [SelectType._assert_valid_value_and_cast, pyIter]
  · simp [SelectType._assert_valid_value_and_cast, h]
  · simp [SelectMultipleType._assert_valid_value_and_cast, h]
  · simp [SelectType._assert_valid_value_and_cast, h]
  · simp [SelectMultipleType._assert_valid_value_and_cast, h]

/-- Witness for C10 at concrete inputs. -/
theorem claim_c10_witness :
    (∃ m, SelectType._assert_valid_value_and_cast (.int 3) = .error (.assertionError m))
    ∧ SelectType._assert_valid_value_and_cast (.list [.int 1]) = .ok (.list [.int 1])
    ∧ SelectMultipleType._assert_valid_value_and_cast (.list [.int 1]) = .ok (.list [.int 1]) := by
  refine ⟨?_, ?_, ?_⟩
  · exact ((claim_c10 (.int 3) "x" []).2.2.1 rfl).1
  · exact ((claim_c10 (.list [.int 1]) "x" [.int 1]).2.1 rfl).1
  · exact ((claim_c10 (.list [.int 1]) "x" [.int 1]).2.1 rfl).2
